import Mathlib

/-!
# ImageBox — verification of the annotation → refinement → generation pipeline

Shallow embedding of the core of the ImageBox repository:

* `src/renderer/packages/imageStorage.ts`   — artifact store (`getFileUrl`, `saveImageFromUrl`, …)
* `src/renderer/packages/spatialProcessing.ts` — coordinate normalizer / region describer
* `src/renderer/packages/imageGeneration.ts` — generation dispatcher, adapters, `refineImage`
* `MessageList.tsx` (`handleRerollImage`)     — version-chain reroll

JavaScript numbers are modelled as `ℚ` (the code performs only division,
addition, comparison and rounding on them), strings as Lean `String`
(`.length` counts characters), and every fallible external effect
(IPC file system calls, HTTP responses, polling) as an explicit
environment record consumed by the embedded functions.  Code that throws
is modelled with `Except`; adapters that catch all their exceptions are
total functions into the result type.
-/

namespace ImageBox

/-! ## JavaScript string primitives

The sources use `String.prototype.startsWith`, `substring`, `trim`,
`split('/')` and `replace(/\\/g, '/')`.  They are re-implemented here at
character level so that everything evaluates by `decide`/`rfl`. -/

/-- `charsLeadWith p s` is true iff the character list `p` is an initial
segment of `s` (the core of JavaScript `s.startsWith(p)`). -/
def charsLeadWith : List Char → List Char → Bool
  | [], _ => true
  | _ :: _, [] => false
  | a :: as, b :: bs => a = b && charsLeadWith as bs

/-- JavaScript `s.startsWith(p)`. -/
def jsStartsWith (s p : String) : Bool :=
  charsLeadWith p.data s.data

/-- JavaScript `s.substring(0, e)`: a negative end index is clamped to `0`,
an end index beyond the length is clamped to the length. -/
def jsSubstringTo (s : String) (e : ℤ) : String :=
  String.mk (s.data.take (max 0 e).toNat)

/-- JavaScript whitespace for `trim` (the characters relevant here). -/
def isJsSpace (c : Char) : Bool :=
  c = Char.ofNat 32 || c = Char.ofNat 9 || c = Char.ofNat 10 || c = Char.ofNat 13 || c = Char.ofNat 12 || c = Char.ofNat 11

/-- JavaScript `s.trim()`. -/
def jsTrim (s : String) : String :=
  String.mk (((s.data.dropWhile isJsSpace).reverse.dropWhile isJsSpace).reverse)

/-- JavaScript truthiness of an optional string: `undefined` and `""` are falsy. -/
def optTruthy : Option String → Bool
  | none => false
  | some s => s ≠ ""

/-- `filePath.replace(/\\/g, '/')` — every backslash becomes a forward slash. -/
def replaceBackslashes (s : String) : String :=
  String.mk (s.data.map (fun c => if c = Char.ofNat 92 then Char.ofNat 47 else c))

/-- JavaScript `s.split('/')` on character lists: `[]` (the empty string)
splits to `[[]]`, separators at the ends produce empty segments. -/
def splitSlash : List Char → List (List Char)
  | [] => [[]]
  | c :: rest =>
    let r := splitSlash rest
    if c = Char.ofNat 47 then [] :: r
    else
      match r with
      | h :: t => (c :: h) :: t
      | [] => [[c]]

/-! ## `encodeURIComponent`

`getFileUrl` percent-encodes every path segment.  `encodeURIComponent`
keeps the unreserved characters `A–Z a–z 0–9 - _ . ! ~ * ' ( )` and
percent-encodes the UTF-8 bytes of everything else. -/

/-- UTF-8 bytes of a Unicode scalar value. -/
def utf8Bytes (n : ℕ) : List ℕ :=
  if n < 128 then [n]
  else if n < 2048 then [192 + n / 64, 128 + n % 64]
  else if n < 65536 then [224 + n / 4096, 128 + n / 64 % 64, 128 + n % 64]
  else [240 + n / 262144, 128 + n / 4096 % 64, 128 + n / 64 % 64, 128 + n % 64]

/-- Upper-case hexadecimal digit. -/
def hexDigit (n : ℕ) : Char :=
  if n < 10 then Char.ofNat (48 + n) else Char.ofNat (55 + n)

/-- `%XY` encoding of one byte. -/
def percentByte (b : ℕ) : String :=
  "%" ++ String.singleton (hexDigit (b / 16)) ++ String.singleton (hexDigit (b % 16))

/-- Characters `encodeURIComponent` leaves as-is. -/
def uriUnreserved (c : Char) : Bool :=
  (65 ≤ c.toNat && c.toNat ≤ 90) || (97 ≤ c.toNat && c.toNat ≤ 122) ||
  (48 ≤ c.toNat && c.toNat ≤ 57) ||
  (c ∈ [Char.ofNat 45, Char.ofNat 95, Char.ofNat 46, Char.ofNat 33, Char.ofNat 126, Char.ofNat 42, Char.ofNat 39, Char.ofNat 40, Char.ofNat 41])

/-- JavaScript `encodeURIComponent`. -/
def encodeURIComponent (s : String) : String :=
  s.data.foldl
    (fun acc c =>
      acc ++ (if uriUnreserved c then String.singleton c
              else ((utf8Bytes c.toNat).map percentByte).foldl (· ++ ·) ""))
    ""

/-! ## `imageStorage.ts`

The file-system side effects (`ensureDirectory`, `downloadImage`,
`saveBase64Image` IPC calls) and the generated unique filename
(`Date.now()-uuid.png`) are abstracted into a `StorageEnv`. -/

/-- Outcomes of the storage collaborators for one call. -/
structure StorageEnv where
  /-- `ensureDirectory(baseImageDir)` succeeds (or storage was already initialized). -/
  baseDirOk : Bool
  /-- `ensureDirectory(sessionDir)` succeeds. -/
  sessionDirOk : Bool
  /-- the `downloadImage` / `saveBase64Image` IPC call succeeds. -/
  persistOk : Bool
  /-- resolved base directory (`appDataDir + "/images"` or the custom path). -/
  baseImageDir : String
  /-- the generated unique filename `Date.now()-uuid.substring(0,8)+".png"`. -/
  uniqueName : String
  /-- the `Math.random()` draw used for the development placeholder URL. -/
  placeholderRand : ℕ

/-- `initImageStorage`: returns the base directory, or rethrows the
`ensureDirectory` failure. -/
def initImageStorage (env : StorageEnv) : Except String String :=
  if env.baseDirOk then .ok env.baseImageDir
  else .error "Failed to initialize image storage"

/-- `getSessionDirectory`: initializes storage, then ensures the per-session
directory `baseImageDir/sessionId`. -/
def getSessionDirectory (env : StorageEnv) (sessionId : String) : Except String String :=
  match initImageStorage env with
  | .error e => .error e
  | .ok base =>
    if env.sessionDirOk then .ok (base ++ "/" ++ sessionId)
    else .error "ensureDirectory failed"

/-- The full path `sessionDir/filename` of a freshly stored artifact. -/
def imageFilePath (env : StorageEnv) (sessionId : String) : String :=
  env.baseImageDir ++ "/" ++ sessionId ++ "/" ++ env.uniqueName

/-- `getFileUrl`: URLs pass through unchanged; anything else is normalized,
prefixed with a slash, percent-encoded per segment and wrapped in `file://`. -/
def getFileUrl (filePath : String) : String :=
  if jsStartsWith filePath "http://" || jsStartsWith filePath "https://" || jsStartsWith filePath "file://" then
    filePath
  else
    let normalizedPath := replaceBackslashes filePath
    let pathWithPrefix := if jsStartsWith normalizedPath "/" then normalizedPath else "/" ++ normalizedPath
    let segments := (splitSlash pathWithPrefix.data).map String.mk
    let encodedPath :=
      (segments.enum).foldl
        (fun acc p =>
          if p.1 = 0 ∧ p.2 = "" then acc ++ "/"
          else acc ++ encodeURIComponent p.2 ++ (if p.1 < segments.length - 1 then "/" else ""))
        ""
    "file://" ++ encodedPath

/-- `saveImageFromDataUrl`: stores decoded base64 bytes and returns
`getFileUrl(path)`; every failure is rethrown to the caller. -/
def saveImageFromDataUrl (env : StorageEnv) (_dataUrl sessionId : String) : Except String String :=
  match getSessionDirectory env sessionId with
  | .error e => .error e
  | .ok dir =>
    if env.persistOk then .ok (getFileUrl (dir ++ "/" ++ env.uniqueName))
    else .error "saveBase64Image failed"

/-- The development placeholder returned when downloading/persisting fails. -/
def picsumPlaceholder (env : StorageEnv) : String :=
  "https://picsum.photos/1024/1024?random=" ++ toString env.placeholderRand

/-- `saveImageFromUrl`: downloads the remote image and returns
`getFileUrl(path)`; on ANY failure it swallows the error and returns a
remote `picsum.photos` placeholder URL instead. -/
def saveImageFromUrl (env : StorageEnv) (_url sessionId : String) : String :=
  match getSessionDirectory env sessionId with
  | .error _ => picsumPlaceholder env
  | .ok dir =>
    if env.persistOk then getFileUrl (dir ++ "/" ++ env.uniqueName)
    else picsumPlaceholder env

/-! ## `spatialProcessing.ts`

Coordinates are `ℚ`.  An `Annot` is the annotation record as used by the
spatial-processing module: a shape kind, the raw device-space coordinates,
the (lazily computed) normalized bounds, a feedback text and the cached
spatial phrase. -/

/-- Normalized bounding region (the object `{x1, y1, x2, y2}`). -/
structure NormalizedCoordinates where
  x1 : ℚ
  y1 : ℚ
  x2 : ℚ
  y2 : ℚ
deriving DecidableEq

/-- `annotation.type` — `'rectangle' | 'freehand' | 'shape'`. -/
inductive ShapeKind
  | rectangle
  | freehand
  | shape
deriving DecidableEq

/-- The annotation record (fields used by spatial processing). -/
structure Annot where
  type : ShapeKind
  coordinates : List ℚ
  normalizedCoordinates : Option NormalizedCoordinates := none
  feedback : String := ""
  spatialReference : Option String := none

/-- JavaScript `Math.round` (round half up). -/
def jsRound (q : ℚ) : ℤ := ⌊q + 1 / 2⌋

/-- `getPercentagePosition`: `Math.round(value * 100) + "%"`. -/
def getPercentagePosition (value : ℚ) : String :=
  toString (jsRound (value * 100)) ++ "%"

/-- `GRID_SECTIONS` — the nine named cells of the 3×3 grid, in the
object-literal insertion order that `Object.entries` iterates. -/
def GRID_SECTIONS : List (String × NormalizedCoordinates) :=
  [("top-left", ⟨0, 0, 33/100, 33/100⟩),
   ("top-center", ⟨33/100, 0, 66/100, 33/100⟩),
   ("top-right", ⟨66/100, 0, 1, 33/100⟩),
   ("middle-left", ⟨0, 33/100, 33/100, 66/100⟩),
   ("center", ⟨33/100, 33/100, 66/100, 66/100⟩),
   ("middle-right", ⟨66/100, 33/100, 1, 66/100⟩),
   ("bottom-left", ⟨0, 66/100, 33/100, 1⟩),
   ("bottom-center", ⟨33/100, 66/100, 66/100, 1⟩),
   ("bottom-right", ⟨66/100, 66/100, 1, 1⟩)]

/-- `normalizeRectangleCoordinates`: destructures `[x, y, width, height]`
and divides by the image dimensions.  (Lists of any other length would
produce NaN coordinates in JavaScript; they are unmodelled and map to
`none`.)  Note: NO clamping happens here. -/
def normalizeRectangleCoordinates (coordinates : List ℚ) (imageWidth imageHeight : ℚ) :
    Option NormalizedCoordinates :=
  match coordinates with
  | [x, y, width, height] =>
    some { x1 := x / imageWidth, y1 := y / imageHeight,
           x2 := (x + width) / imageWidth, y2 := (y + height) / imageHeight }
  | _ => none

/-- The flattened point list `[x1, y1, x2, y2, …]` as a list of pairs.
An odd-length list reads `undefined` in JavaScript (NaN bounds, unmodelled). -/
def flatPairs : List ℚ → Option (List (ℚ × ℚ))
  | [] => some []
  | x :: y :: rest => (flatPairs rest).map (fun l => (x, y) :: l)
  | [_] => none

/-- `normalizeFreehandCoordinates`: bounding box over all sampled points,
divided by the image dimensions.  The empty list leaves the JavaScript
±Infinity initial bounds in place (unmodelled, `none`). -/
def normalizeFreehandCoordinates (coordinates : List ℚ) (imageWidth imageHeight : ℚ) :
    Option NormalizedCoordinates :=
  match flatPairs coordinates with
  | some (p :: ps) =>
    let minX := ps.foldl (fun a q => min a q.1) p.1
    let minY := ps.foldl (fun a q => min a q.2) p.2
    let maxX := ps.foldl (fun a q => max a q.1) p.1
    let maxY := ps.foldl (fun a q => max a q.2) p.2
    some { x1 := minX / imageWidth, y1 := minY / imageHeight,
           x2 := maxX / imageWidth, y2 := maxY / imageHeight }
  | _ => none

/-- The containment test of the `getGridSection` loop:
`centerX >= x1 && centerX <= x2 && centerY >= y1 && centerY <= y2`. -/
def gridPred (cx cy : ℚ) (s : String × NormalizedCoordinates) : Bool :=
  decide (s.2.x1 ≤ cx) && decide (cx ≤ s.2.x2) && decide (s.2.y1 ≤ cy) && decide (cy ≤ s.2.y2)

/-- `getGridSection`: first cell of `GRID_SECTIONS` (in insertion order)
whose closed box contains the centre point of the region; `'center'` only
as the fallback when no cell contains it. -/
def getGridSection (normalizedCoords : NormalizedCoordinates) : String :=
  let centerX := (normalizedCoords.x1 + normalizedCoords.x2) / 2
  let centerY := (normalizedCoords.y1 + normalizedCoords.y2) / 2
  match GRID_SECTIONS.find? (gridPred centerX centerY) with
  | some s => s.1
  | none => "center"

/-- The clamped copy of the coordinates computed inside
`generateSpatialDescription` (`Math.max(0, Math.min(1, ·))` per bound). -/
def clampCoords (c : NormalizedCoordinates) : NormalizedCoordinates :=
  { x1 := max 0 (min 1 c.x1), y1 := max 0 (min 1 c.y1),
    x2 := max 0 (min 1 c.x2), y2 := max 0 (min 1 c.y2) }

/-- The shape-specific tail of the spatial phrase. -/
def shapePhrase (kind : ShapeKind) (left top right bottom width height : String) : String :=
  match kind with
  | .rectangle =>
    "(a rectangle from " ++ left ++ " left, " ++ top ++ " top to " ++ right ++ " right, " ++
    bottom ++ " bottom, with dimensions " ++ width ++ " wide by " ++ height ++ " tall)"
  | .freehand =>
    "(a freehand drawing within a region from " ++ left ++ " left, " ++ top ++ " top to " ++
    right ++ " right, " ++ bottom ++ " bottom)"
  | .shape =>
    "(a shape within a region from " ++ left ++ " left, " ++ top ++ " top to " ++
    right ++ " right, " ++ bottom ++ " bottom)"

/-- `generateSpatialDescription`.  Returns the phrase together with the
(possibly mutated) annotation: when `normalizedCoordinates` is absent it is
computed — WITHOUT clamping — and stored on the annotation; the phrase is
rendered from a clamped copy.  Unit image dimensions with no normalized
coordinates short-circuit to the empty phrase. -/
def generateSpatialDescription (ann : Annot) (imageWidth imageHeight : ℚ) :
    String × Annot :=
  let resolved : Option (NormalizedCoordinates × Annot) :=
    match ann.normalizedCoordinates with
    | some c => some (c, ann)
    | none =>
      if imageWidth = 1 ∧ imageHeight = 1 then none
      else
        match ann.type with
        | .rectangle =>
          (normalizeRectangleCoordinates ann.coordinates imageWidth imageHeight).map
            (fun c => (c, { ann with normalizedCoordinates := some c }))
        | .freehand | .shape =>
          (normalizeFreehandCoordinates ann.coordinates imageWidth imageHeight).map
            (fun c => (c, { ann with normalizedCoordinates := some c }))
  match resolved with
  | none => ("", ann)
  | some (coords, ann') =>
    let clampedCoords := clampCoords coords
    let gridSection := getGridSection clampedCoords
    let left := getPercentagePosition clampedCoords.x1
    let top := getPercentagePosition clampedCoords.y1
    let right := getPercentagePosition clampedCoords.x2
    let bottom := getPercentagePosition clampedCoords.y2
    let width := getPercentagePosition (clampedCoords.x2 - clampedCoords.x1)
    let height := getPercentagePosition (clampedCoords.y2 - clampedCoords.y1)
    ("in the " ++ gridSection ++ " of the image " ++
       shapePhrase ann'.type left top right bottom width height,
     ann')

/-- `estimateImageDimensions` on a size token `"<w>x<h>"`, abstracted to its
parsed output (the parse itself is uninteresting string plumbing). -/
def estimateImageDimensions (w h : ℚ) : ℚ × ℚ := (w, h)

/-- Closed-box membership of a point in a grid cell. -/
def sectionContains (s : NormalizedCoordinates) (cx cy : ℚ) : Prop :=
  s.x1 ≤ cx ∧ cx ≤ s.x2 ∧ s.y1 ≤ cy ∧ cy ≤ s.y2

/-! ## `imageGeneration.ts`

The heterogeneous provider responses are abstracted per adapter into the
exact data flow the code inspects: HTTP `response.ok`, the JSON fields read
by the adapter, and the poll status sequence of the Replicate adapter. -/

/-- The model identifiers dispatched on.  `other` covers the runtime
possibility of an identifier outside the enum (the dispatcher's `else`). -/
inductive ImageGenerationModel
  | DALLE3
  | DALLE2
  | GPT4o
  | StableDiffusion
  | other (id : String)
deriving DecidableEq

/-- `StableDiffusionProvider`. -/
inductive StableDiffusionProvider
  | Local
  | StableDiffusionAPI
  | Replicate
  | Custom
deriving DecidableEq

/-- `ImageGenerationOptions` (the fields the embedded control flow reads). -/
structure ImageGenerationOptions where
  prompt : String
  size : String
  model : ImageGenerationModel
  apiKey : Option String := none
  apiEndpoint : Option String := none
  stableDiffusionHost : Option String := none
  stableDiffusionProvider : Option StableDiffusionProvider := none
  stableDiffusionAPIKey : Option String := none
  sessionId : String
  negativePrompt : Option String := none
  imageDescription : Option String := none
  imageUrl : Option String := none
  uploadPreviousImage : Bool := false

/-- `ImageGenerationResult`. -/
structure ImageGenerationResult where
  success : Bool
  imageUrl : String
  localImagePath : Option String := none
  error : Option String := none
  fullPrompt : Option String := none
deriving DecidableEq

/-- The result literal `{success: false, imageUrl: '', error: msg}` built by
every adapter-level `catch`/early return. -/
def mkFailure (msg : String) : ImageGenerationResult :=
  { success := false, imageUrl := "", error := some msg }

/-- The result literal `{success: true, imageUrl: u, localImagePath: u}`. -/
def mkSuccess (u : String) : ImageGenerationResult :=
  { success := true, imageUrl := u, localImagePath := some u }

/-- Response of an OpenAI images-generations call: HTTP ok flag, the error
text used when not ok, and `data.data?.[0]?.url`. -/
structure DalleResp where
  ok : Bool
  errMsg : String := ""
  url : Option String := none

/-- One Replicate poll response: `result.status` plus the fields read from
terminal statuses.  Statuses other than `succeeded`/`failed` all take the
wait-and-retry path and are represented by `pending`. -/
inductive ReplicatePoll
  | succeeded (output : Option (List String))
  | failed (error : Option String)
  | pending

/-- Replicate adapter environment. -/
structure ReplicateEnv where
  submitOk : Bool := true
  submitErr : String := ""
  /-- `prediction.urls?.get` of the submission response. -/
  predictionUrl : Option String := none
  /-- the status sequence observed by successive polls. -/
  poll : ℕ → ReplicatePoll := fun _ => .pending

/-- `data.output` of a custom-endpoint response: a string or an array. -/
inductive JsonOutput
  | str (s : String)
  | arr (l : List String)

/-- Custom stable-diffusion endpoint response (the fields the shape
matcher probes, all optional). -/
structure CustomResp where
  respOk : Bool := true
  statusText : String := ""
  output : Option JsonOutput := none
  images : Option (List String) := none
  result : Option String := none
  url : Option String := none

/-- Local A1111-style endpoint response. -/
structure LocalSDResp where
  respOk : Bool := true
  statusText : String := ""
  /-- `data.images?.[0]` domain: the base64 image array. -/
  images : Option (List String) := none

/-- stablediffusionapi.com response (`data.status`, `data.message`,
`data.output`). -/
structure SDAPIResp where
  status : String := ""
  message : Option String := none
  output : Option (List String) := none

/-- Everything the generation pipeline can observe from its collaborators
during one dispatch. -/
structure GenEnv where
  storage : StorageEnv
  /-- images-generations endpoint behaviour, as a function of the submitted prompt. -/
  dalle : String → DalleResp := fun _ => {ok := false}
  /-- outcome of the GPT-4o `enhancePromptWithGPT4o` chat call. -/
  enhance : Except String String := .error "unused"
  replicate : ReplicateEnv := {}
  custom : CustomResp := {respOk := false}
  localSD : LocalSDResp := {respOk := false}
  sdapi : SDAPIResp := {}

/-- `generateWithDalle`.  A missing API key or a bad/malformed response is
thrown and caught into a failure result; on success the remote URL is
handed to `saveImageFromUrl` and the local reference is returned. -/
def generateWithDalle (env : GenEnv) (opts : ImageGenerationOptions) : ImageGenerationResult :=
  if !(optTruthy opts.apiKey) then
    mkFailure "API key is required for DALL-E image generation"
  else
    let resp := env.dalle opts.prompt
    if !resp.ok then mkFailure ("DALL-E API error: " ++ resp.errMsg)
    else
      match resp.url with
      | none => mkFailure "No image URL returned from DALL-E API"
      | some u => mkSuccess (saveImageFromUrl env.storage u opts.sessionId)

/-- `generateWithGPT4o`.  Optionally enriches the prompt first (only when
`uploadPreviousImage` and an image URL are present); a FAILED enrichment is
caught locally and the original prompt is used; then a DALL-E 3 call is
made with the (possibly enriched) prompt. -/
def generateWithGPT4o (env : GenEnv) (opts : ImageGenerationOptions) : ImageGenerationResult :=
  if !(optTruthy opts.apiKey) then
    mkFailure "API key is required for GPT-4o image generation"
  else
    let enhancedPrompt :=
      if opts.uploadPreviousImage && optTruthy opts.imageUrl then
        match env.enhance with
        | .ok p => p
        | .error _ => opts.prompt
      else opts.prompt
    let resp := env.dalle enhancedPrompt
    if !resp.ok then mkFailure ("DALL-E API Error: " ++ resp.errMsg)
    else
      match resp.url with
      | none => mkFailure "No image URL found in DALL-E response"
      | some u => mkSuccess (saveImageFromUrl env.storage u opts.sessionId)

/-- `generateWithLocalStableDiffusion`: inline base64 image bytes are
persisted via the data-URL path (which rethrows on persistence failure,
caught into a failure result). -/
def generateWithLocalStableDiffusion (env : GenEnv) (opts : ImageGenerationOptions) :
    ImageGenerationResult :=
  if !env.localSD.respOk then
    mkFailure ("Stable Diffusion API error: " ++ env.localSD.statusText)
  else
    match env.localSD.images with
    | some (b :: _) =>
      if b = "" then mkFailure "No image returned from Stable Diffusion API"
      else
        match saveImageFromDataUrl env.storage ("data:image/png;base64," ++ b) opts.sessionId with
        | .ok localImageUrl => mkSuccess localImageUrl
        | .error e => mkFailure e
    | _ => mkFailure "No image returned from Stable Diffusion API"

/-- `generateWithStableDiffusionAPI` (stablediffusionapi.com). -/
def generateWithStableDiffusionAPI (env : GenEnv) (opts : ImageGenerationOptions) :
    ImageGenerationResult :=
  if !(optTruthy opts.stableDiffusionAPIKey) then
    mkFailure "API key is required for StableDiffusionAPI.com"
  else if env.sdapi.status ≠ "success" then
    mkFailure ("StableDiffusionAPI.com error: " ++
      (if optTruthy env.sdapi.message then env.sdapi.message.getD "" else "Unknown error"))
  else
    match env.sdapi.output with
    | some (u :: _) =>
      if u = "" then mkFailure "No image URL returned from StableDiffusionAPI.com"
      else mkSuccess (saveImageFromUrl env.storage u opts.sessionId)
    | _ => mkFailure "No image URL returned from StableDiffusionAPI.com"

/-- The Replicate poll loop body: up to `fuel` further iterations, counting
attempts upward; `acc` is the `result` variable (the last poll response). -/
def replicatePollLoop (poll : ℕ → ReplicatePoll) :
    ℕ → ℕ → Option ReplicatePoll → Except String (Option ReplicatePoll)
  | 0, _, acc => .ok acc
  | fuel + 1, attempt, _ =>
    match poll attempt with
    | .succeeded out => .ok (some (.succeeded out))
    | .failed e =>
      .error ("Replicate generation failed: " ++ (if optTruthy e then e.getD "" else "Unknown error"))
    | .pending => replicatePollLoop poll fuel (attempt + 1) (some .pending)

/-- `maxAttempts` of the Replicate poll loop. -/
def replicateMaxAttempts : ℕ := 30

/-- `generateWithReplicate`: submit, then poll up to 30 times; `failed`
throws, exhausting the attempts without `succeeded` throws a timeout; both
are caught into failure results. -/
def generateWithReplicate (env : GenEnv) (opts : ImageGenerationOptions) :
    ImageGenerationResult :=
  if !(optTruthy opts.stableDiffusionAPIKey) then
    mkFailure "API key is required for Replicate"
  else if !env.replicate.submitOk then
    mkFailure ("Replicate API error: " ++ env.replicate.submitErr)
  else
    match env.replicate.predictionUrl with
    | none => mkFailure "Invalid response from Replicate"
    | some _ =>
      match replicatePollLoop env.replicate.poll replicateMaxAttempts 0 none with
      | .error e => mkFailure e
      | .ok r =>
        match r with
        | some (.succeeded out) =>
          match (out.getD []).head? with
          | none => mkFailure "No image URL returned from Replicate"
          | some u =>
            if u = "" then mkFailure "No image URL returned from Replicate"
            else mkSuccess (saveImageFromUrl env.storage u opts.sessionId)
        | _ => mkFailure "Timed out waiting for Replicate to generate image"

/-- Else-if chaining of two probes: the first that matched wins. -/
def firstSome (a b : Option String) : Option String :=
  match a with
  | some x => some x
  | none => b

/-- First probe of the custom-response shape matcher:
`data.output && typeof data.output === 'string'`. -/
def customOutputStr (d : CustomResp) : Option String :=
  match d.output with
  | some (.str s) => if s = "" then none else some s
  | _ => none

/-- Second probe: `data.output && Array.isArray(data.output) && length > 0`. -/
def customOutputArr (d : CustomResp) : Option String :=
  match d.output with
  | some (.arr (x :: _)) => some x
  | _ => none

/-- Fourth probe: `data.result && typeof data.result === 'string'`. -/
def customResultField (d : CustomResp) : Option String :=
  match d.result with
  | some r => if r = "" then none else some r
  | none => none

/-- Fifth probe: `data.url && typeof data.url === 'string'`. -/
def customUrlField (d : CustomResp) : Option String :=
  match d.url with
  | some u => if u = "" then none else some u
  | none => none

/-- `generateWithCustomStableDiffusion`: tries the known response shapes in
the fixed source order — `output` as string, `output` as non-empty array,
`images` as non-empty base64 array (early return through the data-URL save
path), `result` string, `url` string — and fails with
`'No image URL found in custom API response'` when none matches. -/
def generateWithCustomStableDiffusion (env : GenEnv) (opts : ImageGenerationOptions) :
    ImageGenerationResult :=
  if !(optTruthy opts.stableDiffusionHost) then
    mkFailure "Host URL is required for custom Stable Diffusion API"
  else if !env.custom.respOk then
    mkFailure ("Custom Stable Diffusion API error: " ++ env.custom.statusText)
  else
    let d := env.custom
    match firstSome (customOutputStr d) (customOutputArr d) with
    | some u =>
      if u = "" then mkFailure "No image URL found in custom API response"
      else mkSuccess (saveImageFromUrl env.storage u opts.sessionId)
    | none =>
      match d.images with
      | some (b :: _) =>
        let dataUrl := if jsStartsWith b "data:" then b else "data:image/png;base64," ++ b
        match saveImageFromDataUrl env.storage dataUrl opts.sessionId with
        | .ok localImageUrl => mkSuccess localImageUrl
        | .error e => mkFailure e
      | _ =>
        match firstSome (customResultField d) (customUrlField d) with
        | some u =>
          if u = "" then mkFailure "No image URL found in custom API response"
          else mkSuccess (saveImageFromUrl env.storage u opts.sessionId)
        | none => mkFailure "No image URL found in custom API response"

/-- `generateWithStableDiffusion`: provider switch, defaulting to the local
endpoint when no provider is configured. -/
def generateWithStableDiffusion (env : GenEnv) (opts : ImageGenerationOptions) :
    ImageGenerationResult :=
  match opts.stableDiffusionProvider.getD .Local with
  | .Local => generateWithLocalStableDiffusion env opts
  | .StableDiffusionAPI => generateWithStableDiffusionAPI env opts
  | .Replicate => generateWithReplicate env opts
  | .Custom => generateWithCustomStableDiffusion env opts

/-- `generateImage` — the dispatcher.  It FIRST awaits `initImageStorage`
WITHOUT a try/catch (so a storage-initialization failure rejects past the
dispatcher), then selects the adapter by model, then stamps `fullPrompt`
onto successful results. -/
def generateImage (env : GenEnv) (opts : ImageGenerationOptions) :
    Except String ImageGenerationResult :=
  match initImageStorage env.storage with
  | .error e => .error e
  | .ok _ =>
    let fullPrompt := opts.prompt
    let result :=
      match opts.model with
      | .DALLE3 | .DALLE2 => generateWithDalle env opts
      | .GPT4o => generateWithGPT4o env opts
      | .StableDiffusion => generateWithStableDiffusion env opts
      | .other id => mkFailure ("Unsupported model: " ++ id)
    .ok (if result.success then { result with fullPrompt := some fullPrompt } else result)

/-! ## `refineImage` — composed-prompt budget enforcement

`refineImage` builds
`Original image prompt: "<orig>"\n\nRefinement instructions: <spatial>`
and applies the staged truncation of lines 804–836 of
`imageGeneration.ts`.  `spatialRefinementPrompt` is taken as an input (it
was produced upstream from the feedback/regions, possibly embedding the
reference description). -/

/-- The combined-prompt template. -/
def refinementTemplate (originalPrompt spatialRefinementPrompt : String) : String :=
  "Original image prompt: \"" ++ originalPrompt ++ "\"\n\nRefinement instructions: " ++
    spatialRefinementPrompt

/-- Marker appended when the image description is shortened. -/
def descriptionTruncationMarker : String :=
  "... [description truncated to fit DALL-E character limit]"

/-- Marker appended when the refinement text is shortened. -/
def refinementTruncationMarker : String :=
  "... [refinement truncated to fit DALL-E character limit]"

/-- The state `refineImage` threads through truncation: the combined prompt
it will dispatch, and the (possibly truncated) `options.imageDescription`. -/
structure RefinePromptState where
  combinedPrompt : String
  imageDescription : Option String
deriving DecidableEq

/-- Lines 804–836 of `imageGeneration.ts`: build the combined prompt; if its
length PLUS the length of the separately held image description exceeds
3800, first shorten the description to 1000 characters (note: the combined
prompt is then rebuilt from the UNCHANGED refinement text, so this first
stage never changes it), and if the combined prompt itself still exceeds
3800, cut the refinement text to `3800 - originalPrompt.length - 50`
characters and append the truncation marker. -/
def composeRefinedPrompt (originalPrompt spatialRefinementPrompt : String)
    (imageDescription : Option String) : RefinePromptState :=
  let combinedPrompt := refinementTemplate originalPrompt spatialRefinementPrompt
  let descriptionLength := (imageDescription.map String.length).getD 0
  let combinedLength := combinedPrompt.length + descriptionLength
  if combinedLength > 3800 then
    let imageDescription :=
      match imageDescription with
      | some d =>
        if d.length > 1000 then some (jsSubstringTo d 1000 ++ descriptionTruncationMarker)
        else some d
      | none => none
    let combinedPrompt := refinementTemplate originalPrompt spatialRefinementPrompt
    if combinedPrompt.length > 3800 then
      let maxRefinementLength : ℤ := 3800 - originalPrompt.length - 50
      let spatial2 := jsSubstringTo spatialRefinementPrompt maxRefinementLength ++
        refinementTruncationMarker
      { combinedPrompt := refinementTemplate originalPrompt spatial2,
        imageDescription := imageDescription }
    else
      { combinedPrompt := combinedPrompt, imageDescription := imageDescription }
  else
    { combinedPrompt := combinedPrompt, imageDescription := imageDescription }

/-! ## `MessageList.tsx` — version chain and reroll -/

/-- A chat message (the fields `handleRerollImage` reads and writes). -/
structure ChatMessage where
  id : String
  role : String := "assistant"
  content : String := ""
  imageUrl : Option String := none
  history : Option (List String) := none
  refinementPrompt : Option String := none
  originalPrompt : Option String := none
  imageDescription : Option String := none
  fullPrompt : Option String := none
  generating : Bool := false
  isReroll : Bool := false

/-- `insertMessage`: appends the message to the session's list. -/
def insertMessage (msgs : List ChatMessage) (m : ChatMessage) : List ChatMessage :=
  msgs ++ [m]

/-- The new `history` of a rerolled message: the old chain with blank
entries filtered out, plus the current artifact URL when it is truthy. -/
def rerollHistory (m : ChatMessage) : Option (List String) :=
  match m.history with
  | some h =>
    let filtered := h.filter (fun url => url ≠ "" && jsTrim url ≠ "")
    if optTruthy m.imageUrl then some (filtered ++ [m.imageUrl.getD ""])
    else some filtered
  | none =>
    if optTruthy m.imageUrl then some [m.imageUrl.getD ""]
    else none

/-- The prompt echoed in the 🎲 reroll chat notice.  `undefined` when the
message has no original prompt and is not a refinement (JS template of
`undefined` is unmodelled; the handler aborts in that case anyway). -/
def rerollPromptToUse (m : ChatMessage) : Option String :=
  if optTruthy m.refinementPrompt then
    some ((m.originalPrompt.getD "") ++ " (with refinements)")
  else m.originalPrompt

/-- The 🎲 user chat message announcing the reroll. -/
def rerollTextMessage (freshId : String) (m : ChatMessage) : ChatMessage :=
  { id := freshId, role := "user",
    content := "Rerolling image with" ++
      (if optTruthy m.refinementPrompt then " refined" else "") ++ " prompt: \"" ++
      (rerollPromptToUse m).getD "" ++ "\"" }

/-- The new chain entry created by a reroll: a copy of the old message with
a fresh id, `generating`, no image yet, the reroll flag, and the extended
history. -/
def rerolledImageMessage (freshId : String) (m : ChatMessage) : ChatMessage :=
  { m with id := freshId, generating := true, imageUrl := none, isReroll := true,
           history := rerollHistory m }

/-- The refinement instruction `handleRerollImage` submits to `refineImage`
for a rerolled refinement (`none` when the entry is not a refinement and
plain generation is used instead).  When the message carries a cached image
description it is PREPENDED as a reference-image-analysis block. -/
def rerollSubmittedInstruction (m : ChatMessage) : Option String :=
  if optTruthy m.refinementPrompt then
    let r := m.refinementPrompt.getD ""
    if optTruthy m.imageDescription then
      some ("## REFERENCE IMAGE ANALYSIS\n" ++ m.imageDescription.getD "" ++ "\n\n" ++ r)
    else some r
  else none

/-- The session-level effect of `handleRerollImage` up to the point where
generation is awaited: abort when there is no prompt to reroll, otherwise
insert the 🎲 notice and then the new chain entry. -/
def handleRerollImage (msgs : List ChatMessage) (m : ChatMessage)
    (textId imgId : String) : List ChatMessage :=
  if !(optTruthy (rerollPromptToUse m)) then msgs
  else insertMessage (insertMessage msgs (rerollTextMessage textId m)) (rerolledImageMessage imgId m)

/-! ## Concrete fixtures used by counterexamples and witnesses -/

/-- A string of `n` copies of `c`. -/
def repChar (n : ℕ) (c : Char) : String := String.mk (List.replicate n c)

/-- A storage environment in which every file-system call succeeds. -/
def storageOk : StorageEnv :=
  { baseDirOk := true, sessionDirOk := true, persistOk := true,
    baseImageDir := "/data/images", uniqueName := "1700000000-abcd1234.png",
    placeholderRand := 7 }

/-- Storage whose `downloadImage`/`saveBase64Image` IPC call fails. -/
def storagePersistFail : StorageEnv :=
  { storageOk with persistOk := false }

/-- Storage whose base-directory creation fails during initialization. -/
def storageInitFail : StorageEnv :=
  { storageOk with baseDirOk := false }

/-- A DALL-E provider that answers every prompt with one remote image URL. -/
def dalleAlwaysOk : String → DalleResp :=
  fun _ => { ok := true, url := some "https://oaidalle.example/tmp/img.png" }

/-- Environment for the persistence-failure counterexample: the provider
answers, but persisting the downloaded image fails. -/
def envPersistFail : GenEnv :=
  { storage := storagePersistFail, dalle := dalleAlwaysOk }

/-- Environment whose storage initialization fails. -/
def envInitFail : GenEnv :=
  { storage := storageInitFail, dalle := dalleAlwaysOk }

/-- DALL-E 3 options with an API key. -/
def optsDalle : ImageGenerationOptions :=
  { prompt := "a red fox", size := "1024x1024", model := .DALLE3,
    apiKey := some "sk-key", sessionId := "sess1" }

/-- Replicate options with an API key. -/
def optsReplicate : ImageGenerationOptions :=
  { prompt := "a red fox", size := "1024x1024", model := .StableDiffusion,
    stableDiffusionProvider := some .Replicate,
    stableDiffusionAPIKey := some "r8-key", sessionId := "sess1" }

/-- Custom-endpoint options with a host configured. -/
def optsCustom : ImageGenerationOptions :=
  { prompt := "a red fox", size := "1024x1024", model := .StableDiffusion,
    stableDiffusionProvider := some .Custom,
    stableDiffusionHost := some "https://sd.example/generate", sessionId := "sess1" }

/-- A poll sequence that reports `pending` five times and then `succeeded`. -/
def pollPending5 : ℕ → ReplicatePoll :=
  fun i => if i < 5 then .pending else .succeeded (some ["https://replicate.example/out0.png"])

/-- Environment for the poll-based witness. -/
def envReplicate5 : GenEnv :=
  { storage := storageOk,
    replicate := { submitOk := true, predictionUrl := some "https://api.replicate.com/v1/predictions/p1",
                   poll := pollPending5 } }

/-- Environment whose Replicate job is `pending` twice and then reports a
provider-side failure. -/
def envReplicateFailed : GenEnv :=
  { storage := storageOk,
    replicate := { submitOk := true, predictionUrl := some "https://api.replicate.com/v1/predictions/p1",
                   poll := fun i => if i < 2 then .pending else .failed (some "NSFW content detected") } }

/-- Environment whose Replicate job never leaves `pending`. -/
def envReplicateStuck : GenEnv :=
  { storage := storageOk,
    replicate := { submitOk := true, predictionUrl := some "https://api.replicate.com/v1/predictions/p1",
                   poll := fun _ => .pending } }

/-- A custom endpoint answering with the A1111-style `{ images: ["<base64>"] }`
shape (and a distracting later-priority `result` field). -/
def envCustomImages : GenEnv :=
  { storage := storageOk,
    custom := { respOk := true, images := some ["iVBORw0KGgoAAAANSUhEU"],
                result := some "https://other.example/ignored.png" } }

/-- A custom endpoint whose response matches none of the known shapes. -/
def envCustomNone : GenEnv :=
  { storage := storageOk, custom := { respOk := true } }

/-- Environment whose GPT-4o prompt enrichment throws. -/
def envEnhanceFail : GenEnv :=
  { storage := storageOk, dalle := dalleAlwaysOk,
    enhance := .error "GPT-4o API Error: rate limited" }

/-- GPT-4o options that request enrichment from the previous image. -/
def optsGPT4o : ImageGenerationOptions :=
  { prompt := "a red fox", size := "1024x1024", model := .GPT4o,
    apiKey := some "sk-key", sessionId := "sess1",
    imageUrl := some "file:///data/images/sess1/old.png", uploadPreviousImage := true }

/-- The rectangle annotation whose raw corner lies left of the canvas. -/
def annOffCanvas : Annot :=
  { type := .rectangle, coordinates := [-50, 10, 20, 20], feedback := "make it blue" }

/-- A well-formed rectangle annotation used against unit image dimensions. -/
def annUnitDims : Annot :=
  { type := .rectangle, coordinates := [0, 0, 1, 1], feedback := "sharpen" }

/-- Message B of the reroll scenario: a refinement with a cached
reference-image description. -/
def msgRefinedB : ChatMessage :=
  { id := "B", imageUrl := some "file:///data/images/s/b.png",
    history := some ["file:///data/images/s/a.png"],
    refinementPrompt := some "make the sky red",
    originalPrompt := some "a mountain lake",
    imageDescription := some "a serene lake, photorealistic" }

/-- A message whose stored history contains a blank entry. -/
def msgBlankHistory : ChatMessage :=
  { id := "B2", imageUrl := some "file:///data/images/s/b2.png",
    history := some [""],
    refinementPrompt := some "add a boat",
    originalPrompt := some "a mountain lake" }

/-! ## Helper lemmas -/

theorem charsLeadWith_append (a b : List Char) : charsLeadWith a (a ++ b) = true := by
  induction a with
  | nil => rfl
  | cons c cs ih => simp [charsLeadWith, ih]

theorem jsStartsWith_append (a b : String) : jsStartsWith (a ++ b) a = true := by
  have h : (a ++ b).data = a.data ++ b.data := String.data_append a b
  simp only [jsStartsWith, h]
  exact charsLeadWith_append _ _

theorem string_append4_ne_empty (a b c d : String) (ha : a.data ≠ []) :
    a ++ b ++ c ++ d ≠ "" := by
  intro he
  apply ha
  have hd := congrArg String.data he
  simp only [String.data_append] at hd
  exact (List.append_eq_nil.mp ((List.append_eq_nil.mp ((List.append_eq_nil.mp hd).1)).1)).1

/-- The non-URL branch of `getFileUrl` always produces a `file://`-prefixed string. -/
theorem getFileUrl_of_not_url (p : String)
    (h : (jsStartsWith p "http://" || jsStartsWith p "https://" || jsStartsWith p "file://") = false) :
    ∃ rest, getFileUrl p = "file://" ++ rest := by
  unfold getFileUrl
  rw [h]
  simp only [Bool.false_eq_true, if_false]
  exact ⟨_, rfl⟩

theorem getFileUrl_of_url (p : String)
    (h : (jsStartsWith p "http://" || jsStartsWith p "https://" || jsStartsWith p "file://") = true) :
    getFileUrl p = p := by
  unfold getFileUrl
  rw [h]
  simp

theorem getFileUrl_idem_aux (p : String) : getFileUrl (getFileUrl p) = getFileUrl p := by
  by_cases h : (jsStartsWith p "http://" || jsStartsWith p "https://" || jsStartsWith p "file://") = true
  · rw [getFileUrl_of_url p h, getFileUrl_of_url p h]
  · have h' : (jsStartsWith p "http://" || jsStartsWith p "https://" || jsStartsWith p "file://") = false :=
      Bool.eq_false_iff.mpr h
    obtain ⟨rest, hrest⟩ := getFileUrl_of_not_url p h'
    rw [hrest]
    apply getFileUrl_of_url
    have hfp : jsStartsWith ("file://" ++ rest) "file://" = true := jsStartsWith_append _ _
    simp [hfp]

/-! ## C10 — `getFileUrl` contract and idempotence -/

/-- C10: an input beginning with `http://`, `https://` or `file://` is
returned unchanged; any other input is returned as a string beginning with
`file://`; consequently `getFileUrl` is idempotent. -/
theorem getFileUrl_contract (p : String) :
    ((jsStartsWith p "http://" || jsStartsWith p "https://" || jsStartsWith p "file://") = true →
      getFileUrl p = p) ∧
    ((jsStartsWith p "http://" || jsStartsWith p "https://" || jsStartsWith p "file://") = false →
      ∃ rest, getFileUrl p = "file://" ++ rest) ∧
    getFileUrl (getFileUrl p) = getFileUrl p :=
  ⟨getFileUrl_of_url p, getFileUrl_of_not_url p, getFileUrl_idem_aux p⟩

/-- C10 witness: concrete evaluations through the theorem. -/
theorem getFileUrl_contract_witness :
    getFileUrl "https://img.example/a.png" = "https://img.example/a.png" ∧
    getFileUrl (getFileUrl "C:\\images\\a b.png") = getFileUrl "C:\\images\\a b.png" :=
  ⟨(getFileUrl_contract "https://img.example/a.png").1 (by decide),
   (getFileUrl_contract "C:\\images\\a b.png").2.2⟩

/-! ## C5 — normalize + describe -/

/-- C5 counterexample: for the rectangle `[-50, 10, 20, 20]` on a 100×100
image, the region stored on the annotation after `generateSpatialDescription`
is the UNCLAMPED quotient, whose `x1 = -1/2` lies outside `[0,1]` — the
claim's "normalized region on the annotation [has] four bounds … in [0,1]"
is false (only the local clamped copy used for the phrase is in range).
Moreover unit image dimensions (also "positive image dimensions") yield an
empty phrase. -/
theorem generateSpatialDescription_counterexample :
    (generateSpatialDescription annOffCanvas 100 100).2.normalizedCoordinates =
      some ⟨-1/2, 1/10, -3/10, 3/10⟩ ∧
    ((-1/2 : ℚ) < 0) ∧
    (generateSpatialDescription annUnitDims 1 1).1 = "" := by
  refine ⟨?_, by norm_num, ?_⟩
  · simp only [generateSpatialDescription, annOffCanvas, normalizeRectangleCoordinates]
    norm_num
  · simp [generateSpatialDescription, annUnitDims]

/-- C5 (amended): for a rectangle annotation `[x, y, w, h]` on a `W×H` image
with positive non-unit dimensions, `generateSpatialDescription` stores the
raw (unclamped) quotient region on the annotation, renders a non-empty
phrase, and the CLAMPED copy it renders from has all four bounds in `[0,1]`
with `x1 ≤ x2` when `w ≥ 0` and `y1 ≤ y2` when `h ≥ 0`; out-of-canvas
points are clamped for the phrase, never rejected. -/
theorem generateSpatialDescription_spec (x y w h W H : ℚ) (fb : String)
    (hW : 0 < W) (hH : 0 < H) (hunit : ¬(W = 1 ∧ H = 1)) :
    (generateSpatialDescription
        { type := .rectangle, coordinates := [x, y, w, h], feedback := fb } W H).2.normalizedCoordinates =
      some { x1 := x / W, y1 := y / H, x2 := (x + w) / W, y2 := (y + h) / H } ∧
    (generateSpatialDescription
        { type := .rectangle, coordinates := [x, y, w, h], feedback := fb } W H).1 ≠ "" ∧
    (let c := clampCoords { x1 := x / W, y1 := y / H, x2 := (x + w) / W, y2 := (y + h) / H }
     (0 ≤ c.x1 ∧ c.x1 ≤ 1) ∧ (0 ≤ c.y1 ∧ c.y1 ≤ 1) ∧
     (0 ≤ c.x2 ∧ c.x2 ≤ 1) ∧ (0 ≤ c.y2 ∧ c.y2 ≤ 1) ∧
     (0 ≤ w → c.x1 ≤ c.x2) ∧ (0 ≤ h → c.y1 ≤ c.y2)) := by
  have hb : ∀ q : ℚ, 0 ≤ max 0 (min 1 q) ∧ max 0 (min 1 q) ≤ 1 := by
    intro q
    exact ⟨le_max_left 0 _, max_le (by norm_num) (min_le_left 1 q)⟩
  have hmono : ∀ a b : ℚ, a ≤ b → max 0 (min 1 a) ≤ max 0 (min 1 b) := by
    intro a b hab
    exact max_le_max le_rfl (min_le_min le_rfl hab)
  refine ⟨?_, ?_, ?_⟩
  · simp only [generateSpatialDescription, normalizeRectangleCoordinates]
    simp [hunit]
  · simp only [generateSpatialDescription, normalizeRectangleCoordinates]
    simp only [hunit, if_false, Option.map_some]
    exact string_append4_ne_empty _ _ _ _ (by decide)
  · refine ⟨hb _, hb _, hb _, hb _, ?_, ?_⟩
    · intro hw
      exact hmono _ _ ((div_le_div_iff_of_pos_right hW).mpr (by linarith))
    · intro hh
      exact hmono _ _ ((div_le_div_iff_of_pos_right hH).mpr (by linarith))

/-- C5 witness: the amended theorem applied to the off-canvas rectangle. -/
theorem generateSpatialDescription_spec_witness :
    (generateSpatialDescription
        { type := .rectangle, coordinates := [-50, 10, 20, 20], feedback := "make it blue" }
        100 100).1 ≠ "" :=
  (generateSpatialDescription_spec (-50) 10 20 20 100 100 "make it blue"
    (by norm_num) (by norm_num) (by norm_num)).2.1

/-! ## C6 — grid-cell assignment -/

/-- C6 counterexample: the degenerate region centred at `(0.33, 0.33)` lies
on a boundary shared by four cells (a tie) — the `center` cell contains the
centroid — yet `getGridSection` returns `top-left` (the first matching cell
in declaration order), not `center`. -/
theorem getGridSection_tie_counterexample :
    getGridSection ⟨33/100, 33/100, 33/100, 33/100⟩ = "top-left" ∧
    sectionContains ⟨33/100, 33/100, 66/100, 66/100⟩ (33/100) (33/100) ∧
    ("center", (⟨33/100, 33/100, 66/100, 66/100⟩ : NormalizedCoordinates)) ∈ GRID_SECTIONS ∧
    ("top-left" : String) ≠ "center" := by
  have hp : gridPred ((33/100 + 33/100) / 2) ((33/100 + 33/100) / 2)
      ("top-left", (⟨0, 0, 33/100, 33/100⟩ : NormalizedCoordinates)) = true := by
    simp only [gridPred, Bool.and_eq_true, decide_eq_true_eq]
    norm_num
  have hfind : GRID_SECTIONS.find?
      (gridPred ((33/100 + 33/100) / 2) ((33/100 + 33/100) / 2)) =
      some ("top-left", ⟨0, 0, 33/100, 33/100⟩) := by
    unfold GRID_SECTIONS
    exact List.find?_cons_of_pos _ hp
  refine ⟨?_, ⟨by norm_num, by norm_num, by norm_num, by norm_num⟩, ?_, by decide⟩
  · show (match GRID_SECTIONS.find?
        (gridPred ((33/100 + 33/100) / 2) ((33/100 + 33/100) / 2)) with
      | some s => s.1
      | none => "center") = "top-left"
    rw [hfind]
  · unfold GRID_SECTIONS
    exact List.Mem.tail _ (List.Mem.tail _ (List.Mem.tail _ (List.Mem.tail _ (List.Mem.head _))))

/-- C6 (amended): whenever the centroid lies in the unit square, the label
returned by `getGridSection` names a cell of `GRID_SECTIONS` that contains
the centroid (the first such cell in declaration order; boundary ties are
resolved by that order, not by defaulting to `center`). -/
theorem getGridSection_spec (nc : NormalizedCoordinates)
    (hx0 : 0 ≤ (nc.x1 + nc.x2) / 2) (hx1 : (nc.x1 + nc.x2) / 2 ≤ 1)
    (hy0 : 0 ≤ (nc.y1 + nc.y2) / 2) (hy1 : (nc.y1 + nc.y2) / 2 ≤ 1) :
    ∃ cell, (getGridSection nc, cell) ∈ GRID_SECTIONS ∧
      sectionContains cell ((nc.x1 + nc.x2) / 2) ((nc.y1 + nc.y2) / 2) := by
  generalize hgx : (nc.x1 + nc.x2) / 2 = cx at hx0 hx1 ⊢
  generalize hgy : (nc.y1 + nc.y2) / 2 = cy at hy0 hy1 ⊢
  have hxcases : cx ≤ 33/100 ∨ (33/100 ≤ cx ∧ cx ≤ 66/100) ∨ 66/100 ≤ cx := by
    rcases le_total cx (33/100) with h | h
    · exact Or.inl h
    · rcases le_total cx (66/100) with h2 | h2
      · exact Or.inr (Or.inl ⟨h, h2⟩)
      · exact Or.inr (Or.inr h2)
  have hycases : cy ≤ 33/100 ∨ (33/100 ≤ cy ∧ cy ≤ 66/100) ∨ 66/100 ≤ cy := by
    rcases le_total cy (33/100) with h | h
    · exact Or.inl h
    · rcases le_total cy (66/100) with h2 | h2
      · exact Or.inr (Or.inl ⟨h, h2⟩)
      · exact Or.inr (Or.inr h2)
  have hcover : ∃ s ∈ GRID_SECTIONS, gridPred cx cy s = true := by
    have mk : ∀ (nm : String) (c : NormalizedCoordinates),
        (nm, c) ∈ GRID_SECTIONS → c.x1 ≤ cx → cx ≤ c.x2 → c.y1 ≤ cy → cy ≤ c.y2 →
        ∃ s ∈ GRID_SECTIONS, gridPred cx cy s = true := by
      intro nm c hmem h1 h2 h3 h4
      refine ⟨(nm, c), hmem, ?_⟩
      simp only [gridPred, Bool.and_eq_true, decide_eq_true_eq]
      exact ⟨⟨⟨h1, h2⟩, h3⟩, h4⟩
    rcases hxcases with hx | ⟨hxa, hxb⟩ | hx <;> rcases hycases with hy | ⟨hya, hyb⟩ | hy
    · exact mk "top-left" ⟨0, 0, 33/100, 33/100⟩ (by unfold GRID_SECTIONS; exact List.Mem.head _) hx0 hx hy0 hy
    · exact mk "middle-left" ⟨0, 33/100, 33/100, 66/100⟩ (by unfold GRID_SECTIONS; exact List.Mem.tail _ (List.Mem.tail _ (List.Mem.tail _ (List.Mem.head _)))) hx0 hx hya hyb
    · exact mk "bottom-left" ⟨0, 66/100, 33/100, 1⟩ (by unfold GRID_SECTIONS; exact List.Mem.tail _ (List.Mem.tail _ (List.Mem.tail _ (List.Mem.tail _ (List.Mem.tail _ (List.Mem.tail _ (List.Mem.head _))))))) hx0 hx hy hy1
    · exact mk "top-center" ⟨33/100, 0, 66/100, 33/100⟩ (by unfold GRID_SECTIONS; exact List.Mem.tail _ (List.Mem.head _)) hxa hxb hy0 hy
    · exact mk "center" ⟨33/100, 33/100, 66/100, 66/100⟩ (by unfold GRID_SECTIONS; exact List.Mem.tail _ (List.Mem.tail _ (List.Mem.tail _ (List.Mem.tail _ (List.Mem.head _))))) hxa hxb hya hyb
    · exact mk "bottom-center" ⟨33/100, 66/100, 66/100, 1⟩ (by unfold GRID_SECTIONS; exact List.Mem.tail _ (List.Mem.tail _ (List.Mem.tail _ (List.Mem.tail _ (List.Mem.tail _ (List.Mem.tail _ (List.Mem.tail _ (List.Mem.head _)))))))) hxa hxb hy hy1
    · exact mk "top-right" ⟨66/100, 0, 1, 33/100⟩ (by unfold GRID_SECTIONS; exact List.Mem.tail _ (List.Mem.tail _ (List.Mem.head _))) hx hx1 hy0 hy
    · exact mk "middle-right" ⟨66/100, 33/100, 1, 66/100⟩ (by unfold GRID_SECTIONS; exact List.Mem.tail _ (List.Mem.tail _ (List.Mem.tail _ (List.Mem.tail _ (List.Mem.tail _ (List.Mem.head _)))))) hx hx1 hya hyb
    · exact mk "bottom-right" ⟨66/100, 66/100, 1, 1⟩ (by unfold GRID_SECTIONS; exact List.Mem.tail _ (List.Mem.tail _ (List.Mem.tail _ (List.Mem.tail _ (List.Mem.tail _ (List.Mem.tail _ (List.Mem.tail _ (List.Mem.tail _ (List.Mem.head _))))))))) hx hx1 hy hy1
  cases hfind : GRID_SECTIONS.find? (gridPred cx cy) with
  | none =>
    exfalso
    obtain ⟨s, hmem, hs⟩ := hcover
    exact absurd hs (List.find?_eq_none.mp hfind s hmem)
  | some p =>
    have hres : getGridSection nc = p.1 := by
      show (match GRID_SECTIONS.find?
          (gridPred ((nc.x1 + nc.x2) / 2) ((nc.y1 + nc.y2) / 2)) with
        | some s => s.1
        | none => "center") = p.1
      rw [hgx, hgy, hfind]
    have hp := List.find?_some hfind
    have hmem := List.mem_of_find?_eq_some hfind
    simp only [gridPred, Bool.and_eq_true, decide_eq_true_eq] at hp
    refine ⟨p.2, ?_, ⟨hp.1.1.1, hp.1.1.2, hp.1.2, hp.2⟩⟩
    rw [hres]
    exact hmem

/-- C6 witness: the amended theorem at the lower-right region of the spec's
scenario, whose centroid is interior (no tie). -/
theorem getGridSection_spec_witness :
    ∃ cell, (getGridSection ⟨7/10, 72/100, 95/100, 95/100⟩, cell) ∈ GRID_SECTIONS ∧
      sectionContains cell ((7/10 + 95/100) / 2) ((72/100 + 95/100) / 2) :=
  getGridSection_spec ⟨7/10, 72/100, 95/100, 95/100⟩
    (by norm_num) (by norm_num) (by norm_num) (by norm_num)

/-! ## C9 — enrichment failure degrades to the original prompt -/

/-- C9: when `enhancePromptWithGPT4o` throws, `generateWithGPT4o` behaves
exactly as if enrichment had returned the original prompt unchanged, and an
enrichment failure alone never fails the request: with an API key and a
DALL-E leg that answers the original prompt with a URL, the adapter still
returns success. -/
theorem generateWithGPT4o_enhance_fallback (env : GenEnv) (opts : ImageGenerationOptions)
    (e : String) (henh : env.enhance = .error e) :
    generateWithGPT4o env opts = generateWithGPT4o { env with enhance := .ok opts.prompt } opts ∧
    (optTruthy opts.apiKey = true → (env.dalle opts.prompt).ok = true →
      (env.dalle opts.prompt).url.isSome = true →
      (generateWithGPT4o env opts).success = true) := by
  constructor
  · simp only [generateWithGPT4o, henh]
  · intro hkey hok hurl
    obtain ⟨u, hu⟩ := Option.isSome_iff_exists.mp hurl
    simp only [generateWithGPT4o, henh, hkey, Bool.not_true, Bool.false_eq_true, if_false, ite_self]
    simp [hok, hu, mkSuccess]

/-- C9 witness: the theorem at the concrete failing-enrichment environment. -/
theorem generateWithGPT4o_enhance_fallback_witness :
    (generateWithGPT4o envEnhanceFail optsGPT4o).success = true :=
  (generateWithGPT4o_enhance_fallback envEnhanceFail optsGPT4o
    "GPT-4o API Error: rate limited" rfl).2 (by decide) rfl rfl

/-! ## C2 — local artifact reference vs. remote placeholder -/

/-- Environment in which the provider answers and every storage call succeeds. -/
def envDalleOk : GenEnv :=
  { storage := storageOk, dalle := dalleAlwaysOk }

/-- C2 counterexample: with a working provider but a failing persistence
step, `saveImageFromUrl` swallows the error and `generateWithDalle` returns
`success = true` carrying the REMOTE `picsum.photos` placeholder URL — no
storage failure is surfaced, contradicting the claim. -/
theorem generateWithDalle_persistFail_counterexample :
    (generateWithDalle envPersistFail optsDalle).success = true ∧
    (generateWithDalle envPersistFail optsDalle).imageUrl =
      "https://picsum.photos/1024/1024?random=7" ∧
    jsStartsWith (generateWithDalle envPersistFail optsDalle).imageUrl "file://" = false ∧
    jsStartsWith (generateWithDalle envPersistFail optsDalle).imageUrl "https://" = true := by
  refine ⟨by decide, by decide, by decide, by decide⟩

/-- C2 (amended): when persistence succeeds the adapter returns the Artifact
Store's stable `file://` reference (never the provider URL); but when
persistence fails the adapter still returns `success = true` with the remote
`picsum.photos` placeholder — the dispatcher does NOT surface a storage
failure. -/
theorem generateWithDalle_localRef_spec (env : GenEnv) (opts : ImageGenerationOptions)
    (u : String)
    (hkey : optTruthy opts.apiKey = true)
    (hok : (env.dalle opts.prompt).ok = true)
    (hurl : (env.dalle opts.prompt).url = some u)
    (hbase : env.storage.baseDirOk = true)
    (hsess : env.storage.sessionDirOk = true) :
    (env.storage.persistOk = true →
      (jsStartsWith (imageFilePath env.storage opts.sessionId) "http://" = false ∧
       jsStartsWith (imageFilePath env.storage opts.sessionId) "https://" = false ∧
       jsStartsWith (imageFilePath env.storage opts.sessionId) "file://" = false) →
      generateWithDalle env opts =
        mkSuccess (getFileUrl (imageFilePath env.storage opts.sessionId)) ∧
      ∃ rest, (generateWithDalle env opts).imageUrl = "file://" ++ rest) ∧
    (env.storage.persistOk = false →
      (generateWithDalle env opts).success = true ∧
      (generateWithDalle env opts).imageUrl = picsumPlaceholder env.storage) := by
  have hsave : ∀ hp : env.storage.persistOk = true,
      saveImageFromUrl env.storage u opts.sessionId =
        getFileUrl (imageFilePath env.storage opts.sessionId) := by
    intro hp
    simp only [saveImageFromUrl, getSessionDirectory, initImageStorage, hbase, if_true, hsess, hp]
    rfl
  have hsave' : env.storage.persistOk = false →
      saveImageFromUrl env.storage u opts.sessionId = picsumPlaceholder env.storage := by
    intro hp
    simp only [saveImageFromUrl, getSessionDirectory, initImageStorage, hbase, if_true, hsess, hp]
    rfl
  constructor
  · intro hp hnoturl
    have hres : generateWithDalle env opts =
        mkSuccess (getFileUrl (imageFilePath env.storage opts.sessionId)) := by
      simp only [generateWithDalle, hkey, Bool.not_true, Bool.false_eq_true, if_false,
        hok, hurl, hsave hp]
    refine ⟨hres, ?_⟩
    have hfalse : (jsStartsWith (imageFilePath env.storage opts.sessionId) "http://" ||
        jsStartsWith (imageFilePath env.storage opts.sessionId) "https://" ||
        jsStartsWith (imageFilePath env.storage opts.sessionId) "file://") = false := by
      rw [hnoturl.1, hnoturl.2.1, hnoturl.2.2]
      rfl
    obtain ⟨rest, hrest⟩ := getFileUrl_of_not_url _ hfalse
    exact ⟨rest, by rw [hres, mkSuccess, hrest]⟩
  · intro hp
    have hres : generateWithDalle env opts = mkSuccess (picsumPlaceholder env.storage) := by
      simp only [generateWithDalle, hkey, Bool.not_true, Bool.false_eq_true, if_false,
        hok, hurl, hsave' hp]
    rw [hres]
    exact ⟨rfl, rfl⟩

/-- C2 witness: the amended theorem at the all-ok environment. -/
theorem generateWithDalle_localRef_spec_witness :
    generateWithDalle envDalleOk optsDalle =
      mkSuccess (getFileUrl (imageFilePath envDalleOk.storage optsDalle.sessionId)) :=
  ((generateWithDalle_localRef_spec envDalleOk optsDalle
      "https://oaidalle.example/tmp/img.png" (by decide) rfl rfl rfl rfl).1
    rfl ⟨by decide, by decide, by decide⟩).1

/-! ## C8 — best-effort custom adapter shape matching -/

/-- C8: the custom adapter matches the known response shapes in the fixed
source order.  A response `{ images: ["<base64>"] }` (no `output` field) is
recognized — even when later-priority `result`/`url` fields are also present
— and with working storage its payload is persisted via the Artifact Store
and the call succeeds with the local reference; a string `output` takes
priority over everything; a response matching none of the shapes fails with
the unrecognized-response error, never success. -/
theorem generateWithCustomStableDiffusion_spec (env : GenEnv) (opts : ImageGenerationOptions)
    (hhost : optTruthy opts.stableDiffusionHost = true)
    (hok : env.custom.respOk = true) :
    (∀ b rest, env.custom.output = none → env.custom.images = some (b :: rest) →
      jsStartsWith b "data:" = false →
      env.storage.baseDirOk = true → env.storage.sessionDirOk = true →
      env.storage.persistOk = true →
      generateWithCustomStableDiffusion env opts =
        mkSuccess (getFileUrl (imageFilePath env.storage opts.sessionId))) ∧
    (env.custom.output = none → env.custom.images = none → env.custom.result = none →
      env.custom.url = none →
      generateWithCustomStableDiffusion env opts =
        mkFailure "No image URL found in custom API response" ∧
      (generateWithCustomStableDiffusion env opts).success = false) ∧
    (∀ s, env.custom.output = some (.str s) → s ≠ "" →
      generateWithCustomStableDiffusion env opts =
        mkSuccess (saveImageFromUrl env.storage s opts.sessionId)) := by
  refine ⟨?_, ?_, ?_⟩
  · intro b rest hout himg hdata hbase hsess hp
    have hsave : saveImageFromDataUrl env.storage ("data:image/png;base64," ++ b) opts.sessionId =
        .ok (getFileUrl (imageFilePath env.storage opts.sessionId)) := by
      simp only [saveImageFromDataUrl, getSessionDirectory, initImageStorage, hbase, if_true,
        hsess, hp]
      rfl
    simp only [generateWithCustomStableDiffusion, hhost, Bool.not_true, Bool.false_eq_true,
      if_false, hok, customOutputStr, customOutputArr, hout, himg, firstSome, hdata,
      Bool.false_eq_true, if_false, hsave]
  · intro hout himg hres hurl
    constructor
    · simp only [generateWithCustomStableDiffusion, hhost, Bool.not_true, Bool.false_eq_true,
        if_false, hok, customOutputStr, customOutputArr, customResultField, customUrlField,
        hout, himg, hres, hurl, firstSome]
    · simp only [generateWithCustomStableDiffusion, hhost, Bool.not_true, Bool.false_eq_true,
        if_false, hok, customOutputStr, customOutputArr, customResultField, customUrlField,
        hout, himg, hres, hurl, firstSome, mkFailure]
  · intro s hout hs
    simp only [generateWithCustomStableDiffusion, hhost, Bool.not_true, Bool.false_eq_true,
      if_false, hok, customOutputStr, customOutputArr, hout, firstSome, hs, if_false]

/-- C8 witness: the `{ images: ["<base64>"] }` shape at the concrete
environment succeeds with the stored local reference, and the shape-free
response fails. -/
theorem generateWithCustomStableDiffusion_spec_witness :
    generateWithCustomStableDiffusion envCustomImages optsCustom =
      mkSuccess (getFileUrl (imageFilePath envCustomImages.storage optsCustom.sessionId)) ∧
    (generateWithCustomStableDiffusion envCustomNone optsCustom).success = false :=
  ⟨(generateWithCustomStableDiffusion_spec envCustomImages optsCustom (by decide) rfl).1
      "iVBORw0KGgoAAAANSUhEU" [] rfl rfl (by decide) rfl rfl rfl,
   ((generateWithCustomStableDiffusion_spec envCustomNone optsCustom (by decide) rfl).2.1
      rfl rfl rfl rfl).2⟩

/-! ## C7 — bounded poll loop of the Replicate adapter -/

theorem replicatePollLoop_agree (poll poll' : ℕ → ReplicatePoll) :
    ∀ fuel attempt acc, (∀ i, attempt ≤ i → i < attempt + fuel → poll i = poll' i) →
      replicatePollLoop poll fuel attempt acc = replicatePollLoop poll' fuel attempt acc := by
  intro fuel
  induction fuel with
  | zero => intro attempt acc _; rfl
  | succ n ih =>
    intro attempt acc hag
    have h0 : poll attempt = poll' attempt := hag attempt le_rfl (by omega)
    simp only [replicatePollLoop, h0]
    cases poll' attempt with
    | succeeded out => rfl
    | failed e => rfl
    | pending => exact ih (attempt + 1) (some .pending) (fun i h1 h2 => hag i (by omega) (by omega))

theorem replicatePollLoop_pending_succ (poll : ℕ → ReplicatePoll) :
    ∀ (k : ℕ) (out : Option (List String)) (fuel attempt : ℕ) (acc : Option ReplicatePoll),
      (∀ i, i < k → poll (attempt + i) = .pending) →
      poll (attempt + k) = .succeeded out → k < fuel →
      replicatePollLoop poll fuel attempt acc = .ok (some (.succeeded out)) := by
  intro k
  induction k with
  | zero =>
    intro out fuel attempt acc _ hsucc hk
    cases fuel with
    | zero => omega
    | succ n =>
      have h0 : poll attempt = .succeeded out := by simpa using hsucc
      simp only [replicatePollLoop, h0]
  | succ m ih =>
    intro out fuel attempt acc hpend hsucc hk
    cases fuel with
    | zero => omega
    | succ n =>
      have h0 : poll attempt = .pending := by simpa using hpend 0 (by omega)
      simp only [replicatePollLoop, h0]
      refine ih out n (attempt + 1) (some .pending) ?_ ?_ (by omega)
      · intro i hi
        have hp := hpend (i + 1) (by omega)
        rwa [show attempt + (i + 1) = attempt + 1 + i by omega] at hp
      · rwa [show attempt + 1 + m = attempt + (m + 1) by omega]

theorem replicatePollLoop_pending_fail (poll : ℕ → ReplicatePoll) :
    ∀ (k : ℕ) (e : Option String) (fuel attempt : ℕ) (acc : Option ReplicatePoll),
      (∀ i, i < k → poll (attempt + i) = .pending) →
      poll (attempt + k) = .failed e → k < fuel →
      replicatePollLoop poll fuel attempt acc =
        .error ("Replicate generation failed: " ++
          (if optTruthy e then e.getD "" else "Unknown error")) := by
  intro k
  induction k with
  | zero =>
    intro e fuel attempt acc _ hfail hk
    cases fuel with
    | zero => omega
    | succ n =>
      have h0 : poll attempt = .failed e := by simpa using hfail
      simp only [replicatePollLoop, h0]
  | succ m ih =>
    intro e fuel attempt acc hpend hfail hk
    cases fuel with
    | zero => omega
    | succ n =>
      have h0 : poll attempt = .pending := by simpa using hpend 0 (by omega)
      simp only [replicatePollLoop, h0]
      refine ih e n (attempt + 1) (some .pending) ?_ ?_ (by omega)
      · intro i hi
        have hp := hpend (i + 1) (by omega)
        rwa [show attempt + (i + 1) = attempt + 1 + i by omega] at hp
      · rwa [show attempt + 1 + m = attempt + (m + 1) by omega]

theorem replicatePollLoop_all_pending (poll : ℕ → ReplicatePoll)
    (hpend : ∀ i, poll i = .pending) :
    ∀ fuel attempt acc, replicatePollLoop poll fuel attempt acc =
      .ok (if fuel = 0 then acc else some .pending) := by
  intro fuel
  induction fuel with
  | zero => intro attempt acc; rfl
  | succ n ih =>
    intro attempt acc
    simp only [replicatePollLoop, hpend attempt]
    rw [ih (attempt + 1) (some .pending)]
    simp

/-- C7: the Replicate poll loop is bounded — the adapter's outcome depends
only on the first 30 poll responses; a submission that is `pending` for five
polls and then `succeeded` with an output URL returns `success = true`; a
provider-reported `failed` status (after any number of pending polls within
the budget) returns a failure result, never success; and a submission that
never leaves `pending` returns the timeout failure, never success. -/
theorem generateWithReplicate_spec (env : GenEnv) (opts : ImageGenerationOptions)
    (hkey : optTruthy opts.stableDiffusionAPIKey = true)
    (hsub : env.replicate.submitOk = true)
    (hurl : env.replicate.predictionUrl.isSome = true) :
    (∀ poll', (∀ i, i < replicateMaxAttempts → env.replicate.poll i = poll' i) →
      generateWithReplicate { env with replicate := { env.replicate with poll := poll' } } opts =
        generateWithReplicate env opts) ∧
    (∀ u, u ≠ "" → (∀ i, i < 5 → env.replicate.poll i = .pending) →
      env.replicate.poll 5 = .succeeded (some [u]) →
      (generateWithReplicate env opts).success = true) ∧
    (∀ k e, k < replicateMaxAttempts →
      (∀ i, i < k → env.replicate.poll i = .pending) →
      env.replicate.poll k = .failed e →
      generateWithReplicate env opts =
        mkFailure ("Replicate generation failed: " ++
          (if optTruthy e then e.getD "" else "Unknown error")) ∧
      (generateWithReplicate env opts).success = false) ∧
    ((∀ i, env.replicate.poll i = .pending) →
      generateWithReplicate env opts =
        mkFailure "Timed out waiting for Replicate to generate image" ∧
      (generateWithReplicate env opts).success = false) := by
  obtain ⟨pu, hpu⟩ := Option.isSome_iff_exists.mp hurl
  refine ⟨?_, ?_, ?_, ?_⟩
  · intro poll' hag
    have hloop : replicatePollLoop poll' replicateMaxAttempts 0 none =
        replicatePollLoop env.replicate.poll replicateMaxAttempts 0 none :=
      (replicatePollLoop_agree env.replicate.poll poll' replicateMaxAttempts 0 none
        (fun i h1 h2 => hag i (by omega))).symm
    simp only [generateWithReplicate, hkey, hsub, hpu, Bool.not_true, Bool.false_eq_true,
      if_false, hloop]
  · intro u hu hpend hsucc
    have hloop : replicatePollLoop env.replicate.poll replicateMaxAttempts 0 none =
        .ok (some (.succeeded (some [u]))) :=
      replicatePollLoop_pending_succ env.replicate.poll 5 (some [u])
        replicateMaxAttempts 0 none (fun i hi => by simpa using hpend i hi)
        (by simpa using hsucc) (by norm_num [replicateMaxAttempts])
    simp only [generateWithReplicate, hkey, hsub, hpu, Bool.not_true, Bool.false_eq_true,
      if_false, hloop]
    simp [hu, mkSuccess]
  · intro k e hk hpend hfail
    have hloop : replicatePollLoop env.replicate.poll replicateMaxAttempts 0 none =
        .error ("Replicate generation failed: " ++
          (if optTruthy e then e.getD "" else "Unknown error")) :=
      replicatePollLoop_pending_fail env.replicate.poll k e
        replicateMaxAttempts 0 none (fun i hi => by simpa using hpend i hi)
        (by simpa using hfail) hk
    constructor
    · simp only [generateWithReplicate, hkey, hsub, hpu, Bool.not_true, Bool.false_eq_true,
        if_false, hloop]
    · simp only [generateWithReplicate, hkey, hsub, hpu, Bool.not_true, Bool.false_eq_true,
        if_false, hloop, mkFailure]
  · intro hpend
    have hloop : replicatePollLoop env.replicate.poll replicateMaxAttempts 0 none =
        .ok (some .pending) := by
      rw [replicatePollLoop_all_pending env.replicate.poll hpend replicateMaxAttempts 0 none]
      norm_num [replicateMaxAttempts]
    constructor
    · simp only [generateWithReplicate, hkey, hsub, hpu, Bool.not_true, Bool.false_eq_true,
        if_false, hloop]
    · simp only [generateWithReplicate, hkey, hsub, hpu, Bool.not_true, Bool.false_eq_true,
        if_false, hloop, mkFailure]

/-- C7 witness: the pending-five-then-succeeded environment succeeds, the
provider-failed environment returns the failure result, and the stuck
environment times out, all through the theorem. -/
theorem generateWithReplicate_spec_witness :
    (generateWithReplicate envReplicate5 optsReplicate).success = true ∧
    generateWithReplicate envReplicateFailed optsReplicate =
      mkFailure "Replicate generation failed: NSFW content detected" ∧
    (generateWithReplicate envReplicateFailed optsReplicate).success = false ∧
    generateWithReplicate envReplicateStuck optsReplicate =
      mkFailure "Timed out waiting for Replicate to generate image" :=
  ⟨(generateWithReplicate_spec envReplicate5 optsReplicate (by decide) rfl rfl).2.1
      "https://replicate.example/out0.png" (by decide)
      (fun i hi => by simp [envReplicate5, pollPending5, hi])
      (by simp [envReplicate5, pollPending5]),
   (((generateWithReplicate_spec envReplicateFailed optsReplicate (by decide) rfl rfl).2.2.1
      2 (some "NSFW content detected") (by decide)
      (fun i hi => by simp [envReplicateFailed, hi])
      (by simp [envReplicateFailed])).1).trans (by decide),
   ((generateWithReplicate_spec envReplicateFailed optsReplicate (by decide) rfl rfl).2.2.1
      2 (some "NSFW content detected") (by decide)
      (fun i hi => by simp [envReplicateFailed, hi])
      (by simp [envReplicateFailed])).2,
   ((generateWithReplicate_spec envReplicateStuck optsReplicate (by decide) rfl rfl).2.2.2
      (fun i => rfl)).1⟩

/-! ## C3 — reroll: chain append and reused instruction -/

theorem string_append_ne_empty_right (a b : String) (hb : b.data ≠ []) : a ++ b ≠ "" := by
  intro he
  apply hb
  have hd := congrArg String.data he
  simp only [String.data_append] at hd
  exact (List.append_eq_nil.mp hd).2

/-- C3 counterexample: rerolling refinement B, which carries a cached image
description, submits the description-prefixed instruction — NOT B's stored
instruction; and a stored chain containing a blank entry is filtered, so the
new chain is not `H ++ [u]` verbatim. -/
theorem handleRerollImage_counterexample :
    rerollSubmittedInstruction msgRefinedB =
      some ("## REFERENCE IMAGE ANALYSIS\na serene lake, photorealistic\n\nmake the sky red") ∧
    rerollSubmittedInstruction msgRefinedB ≠ msgRefinedB.refinementPrompt ∧
    (rerolledImageMessage "C2" msgBlankHistory).history =
      some ["file:///data/images/s/b2.png"] ∧
    (rerolledImageMessage "C2" msgBlankHistory).history ≠
      some ["", "file:///data/images/s/b2.png"] := by
  refine ⟨by decide, by decide, by decide, by decide⟩

/-- C3 (amended): rerolling a message whose chain `H` holds only genuine
(non-blank) artifact references and whose current artifact is `u` creates a
new entry with a fresh id and chain `H ++ [u]`, appended to the session
without touching the existing entries; the instruction submitted for the new
entry is B's stored refinement instruction when B has no cached image
description, and the stored instruction prefixed with a
reference-image-analysis block containing that description otherwise. -/
theorem handleRerollImage_spec (msgs : List ChatMessage) (m : ChatMessage)
    (H : List String) (u r textId imgId : String)
    (hH : m.history = some H) (hHok : ∀ x ∈ H, x ≠ "" ∧ jsTrim x ≠ "")
    (hu : m.imageUrl = some u) (hu0 : u ≠ "")
    (hr : m.refinementPrompt = some r) (hr0 : r ≠ "") :
    handleRerollImage msgs m textId imgId =
      msgs ++ [rerollTextMessage textId m, rerolledImageMessage imgId m] ∧
    (rerolledImageMessage imgId m).history = some (H ++ [u]) ∧
    (rerolledImageMessage imgId m).id = imgId ∧
    (∀ x ∈ msgs, x ∈ handleRerollImage msgs m textId imgId) ∧
    (m.imageDescription = none → rerollSubmittedInstruction m = some r) ∧
    (∀ d, m.imageDescription = some d → d ≠ "" →
      rerollSubmittedInstruction m =
        some ("## REFERENCE IMAGE ANALYSIS\n" ++ d ++ "\n\n" ++ r)) := by
  have htruthy : optTruthy m.refinementPrompt = true := by
    rw [hr]
    simpa [optTruthy] using hr0
  have hprompt : rerollPromptToUse m =
      some ((m.originalPrompt.getD "") ++ " (with refinements)") := by
    simp [rerollPromptToUse, htruthy]
  have hptruthy : optTruthy (rerollPromptToUse m) = true := by
    rw [hprompt]
    simpa [optTruthy] using
      string_append_ne_empty_right (m.originalPrompt.getD "") " (with refinements)" (by decide)
  have hfilter : H.filter (fun url => url ≠ "" && jsTrim url ≠ "") = H := by
    apply List.filter_eq_self.mpr
    intro a ha
    have := hHok a ha
    simp only [Bool.and_eq_true, decide_eq_true_eq, ne_eq]
    exact ⟨this.1, this.2⟩
  have hhist : rerollHistory m = some (H ++ [u]) := by
    simp only [rerollHistory, hH, hu, hfilter]
    have : optTruthy (some u) = true := by simpa [optTruthy] using hu0
    simp [this]
  refine ⟨?_, ?_, rfl, ?_, ?_, ?_⟩
  · simp only [handleRerollImage, hptruthy, Bool.not_true, Bool.false_eq_true, if_false,
      insertMessage, List.append_assoc]
    rfl
  · simp only [rerolledImageMessage, hhist]
  · intro x hx
    simp only [handleRerollImage, hptruthy, Bool.not_true, Bool.false_eq_true, if_false,
      insertMessage, List.append_assoc]
    exact List.mem_append_left _ hx
  · intro hd
    simp [rerollSubmittedInstruction, htruthy, hd, optTruthy, hr, hr0]
  · intro d hd hd0
    have h1 : optTruthy (some r) = true := by simpa [optTruthy] using hr0
    have h2 : optTruthy (some d) = true := by simpa [optTruthy] using hd0
    simp [rerollSubmittedInstruction, hr, hd, h1, h2]

/-- C3 witness: the amended theorem at a concrete single-entry chain. -/
theorem handleRerollImage_spec_witness :
    (rerolledImageMessage "C"
      { id := "B3", imageUrl := some "file:///img/b.png",
        history := some ["file:///img/a.png"],
        refinementPrompt := some "add snow",
        originalPrompt := some "a mountain" }).history =
      some ["file:///img/a.png", "file:///img/b.png"] :=
  (handleRerollImage_spec []
    { id := "B3", imageUrl := some "file:///img/b.png",
      history := some ["file:///img/a.png"],
      refinementPrompt := some "add snow",
      originalPrompt := some "a mountain" }
    ["file:///img/a.png"] "file:///img/b.png" "add snow" "T" "C"
    rfl (by decide) rfl (by decide) rfl (by decide)).2.1

/-! ## C4 — dispatcher propagation policy -/

/-- Every failing result built by an adapter carries an error message. -/
def resultWellFormed (r : ImageGenerationResult) : Prop :=
  r.success = false → r.error.isSome = true

theorem mkFailure_wf (msg : String) : resultWellFormed (mkFailure msg) := by
  intro _
  rfl

theorem mkSuccess_wf (u : String) : resultWellFormed (mkSuccess u) := by
  intro h
  simp [mkSuccess] at h

theorem generateWithDalle_wf (env : GenEnv) (opts : ImageGenerationOptions) :
    resultWellFormed (generateWithDalle env opts) := by
  unfold generateWithDalle
  dsimp only
  split
  · exact mkFailure_wf _
  · split
    · exact mkFailure_wf _
    · split
      · exact mkFailure_wf _
      · exact mkSuccess_wf _

theorem generateWithGPT4o_wf (env : GenEnv) (opts : ImageGenerationOptions) :
    resultWellFormed (generateWithGPT4o env opts) := by
  unfold generateWithGPT4o
  dsimp only
  split
  · exact mkFailure_wf _
  · split
    · split
      · exact mkFailure_wf _
      · split
        · exact mkFailure_wf _
        · exact mkSuccess_wf _
    · split
      · exact mkFailure_wf _
      · split
        · exact mkFailure_wf _
        · exact mkSuccess_wf _

theorem generateWithLocalStableDiffusion_wf (env : GenEnv) (opts : ImageGenerationOptions) :
    resultWellFormed (generateWithLocalStableDiffusion env opts) := by
  unfold generateWithLocalStableDiffusion
  split
  · exact mkFailure_wf _
  · split
    · split
      · exact mkFailure_wf _
      · split
        · exact mkSuccess_wf _
        · exact mkFailure_wf _
    · exact mkFailure_wf _

theorem generateWithStableDiffusionAPI_wf (env : GenEnv) (opts : ImageGenerationOptions) :
    resultWellFormed (generateWithStableDiffusionAPI env opts) := by
  unfold generateWithStableDiffusionAPI
  split
  · exact mkFailure_wf _
  · split
    · exact mkFailure_wf _
    · split
      · split
        · exact mkFailure_wf _
        · exact mkSuccess_wf _
      · exact mkFailure_wf _

theorem generateWithReplicate_wf (env : GenEnv) (opts : ImageGenerationOptions) :
    resultWellFormed (generateWithReplicate env opts) := by
  unfold generateWithReplicate
  split
  · exact mkFailure_wf _
  · split
    · exact mkFailure_wf _
    · split
      · exact mkFailure_wf _
      · split
        · exact mkFailure_wf _
        · split
          · split
            · exact mkFailure_wf _
            · split
              · exact mkFailure_wf _
              · exact mkSuccess_wf _
          · exact mkFailure_wf _

theorem generateWithCustomStableDiffusion_wf (env : GenEnv) (opts : ImageGenerationOptions) :
    resultWellFormed (generateWithCustomStableDiffusion env opts) := by
  unfold generateWithCustomStableDiffusion
  dsimp only
  split
  · exact mkFailure_wf _
  · split
    · exact mkFailure_wf _
    · split
      · split
        · exact mkFailure_wf _
        · exact mkSuccess_wf _
      · split
        · split
          · exact mkSuccess_wf _
          · exact mkFailure_wf _
        · split
          · split
            · exact mkFailure_wf _
            · exact mkSuccess_wf _
          · exact mkFailure_wf _

theorem generateWithStableDiffusion_wf (env : GenEnv) (opts : ImageGenerationOptions) :
    resultWellFormed (generateWithStableDiffusion env opts) := by
  unfold generateWithStableDiffusion
  split
  · exact generateWithLocalStableDiffusion_wf env opts
  · exact generateWithStableDiffusionAPI_wf env opts
  · exact generateWithReplicate_wf env opts
  · exact generateWithCustomStableDiffusion_wf env opts

/-- C4 counterexample: with a failing storage initialization, `generateImage`
rejects past the dispatcher boundary instead of returning a failure result —
even for a perfectly good request. -/
theorem generateImage_initFail_counterexample :
    generateImage envInitFail optsDalle = .error "Failed to initialize image storage" ∧
    (generateImage envInitFail optsDalle).isOk = false := by
  exact ⟨rfl, rfl⟩

/-- C4 (amended): once storage initialization succeeds, `generateImage`
always returns a result value for every options value and every collaborator
behaviour — adapter-level failures are converted to `success = false` with
an error message, and an unknown model identifier yields the `Unsupported
model` failure result — but a storage-initialization failure IS thrown past
the dispatcher boundary (see the counterexample). -/
theorem generateImage_spec (env : GenEnv) (opts : ImageGenerationOptions)
    (hinit : env.storage.baseDirOk = true) :
    (generateImage env opts).isOk = true ∧
    (∀ r, generateImage env opts = .ok r → r.success = false → r.error.isSome = true) ∧
    (∀ id, opts.model = .other id →
      generateImage env opts = .ok (mkFailure ("Unsupported model: " ++ id))) := by
  have hinit' : initImageStorage env.storage = .ok env.storage.baseImageDir := by
    simp [initImageStorage, hinit]
  have hwf : resultWellFormed
      (match opts.model with
        | .DALLE3 | .DALLE2 => generateWithDalle env opts
        | .GPT4o => generateWithGPT4o env opts
        | .StableDiffusion => generateWithStableDiffusion env opts
        | .other id => mkFailure ("Unsupported model: " ++ id)) := by
    cases opts.model with
    | DALLE3 => exact generateWithDalle_wf env opts
    | DALLE2 => exact generateWithDalle_wf env opts
    | GPT4o => exact generateWithGPT4o_wf env opts
    | StableDiffusion => exact generateWithStableDiffusion_wf env opts
    | other id => exact mkFailure_wf _
  refine ⟨?_, ?_, ?_⟩
  · simp only [generateImage, hinit']
    rfl
  · intro r hr hfail
    simp only [generateImage, hinit'] at hr
    set res := (match opts.model with
      | .DALLE3 | .DALLE2 => generateWithDalle env opts
      | .GPT4o => generateWithGPT4o env opts
      | .StableDiffusion => generateWithStableDiffusion env opts
      | .other id => mkFailure ("Unsupported model: " ++ id)) with hres
    by_cases hs : res.success = true
    · rw [Except.ok.injEq] at hr
      rw [← hr] at hfail
      simp [hs] at hfail
    · have hs' : res.success = false := Bool.eq_false_iff.mpr hs
      rw [Except.ok.injEq] at hr
      rw [← hr] at hfail ⊢
      simp only [hs', Bool.false_eq_true, if_false]
      exact hwf hs'
  · intro id hid
    simp [generateImage, hinit', hid, mkFailure]

/-- C4 witness: the amended theorem at a concrete environment, for both a
known model with a failing adapter and an unknown model identifier. -/
theorem generateImage_spec_witness :
    (generateImage envDalleOk
      { prompt := "p", size := "1024x1024", model := .other "magic-model",
        sessionId := "s" }).isOk = true ∧
    generateImage envDalleOk
      { prompt := "p", size := "1024x1024", model := .other "magic-model",
        sessionId := "s" } = .ok (mkFailure ("Unsupported model: " ++ "magic-model")) :=
  ⟨(generateImage_spec envDalleOk
      { prompt := "p", size := "1024x1024", model := .other "magic-model",
        sessionId := "s" } rfl).1,
   (generateImage_spec envDalleOk
      { prompt := "p", size := "1024x1024", model := .other "magic-model",
        sessionId := "s" } rfl).2.2 "magic-model" rfl⟩

/-! ## C1 — refinement-prompt budget -/

theorem repChar_length (n : ℕ) (c : Char) : (repChar n c).length = n := by
  show (List.replicate n c).length = n
  exact List.length_replicate n c

theorem refinementTemplate_length (o sp : String) :
    (refinementTemplate o sp).length = 52 + o.length + sp.length := by
  simp only [refinementTemplate, String.length_append]
  rw [show ("Original image prompt: \"" : String).length = 24 from rfl,
      show ("\"\n\nRefinement instructions: " : String).length = 28 from rfl]
  omega

theorem jsSubstringTo_length (s : String) (e : ℤ) :
    (jsSubstringTo s e).length = min (max 0 e).toNat s.length := by
  show (s.data.take (max 0 e).toNat).length = min (max 0 e).toNat s.data.length
  rw [List.length_take]

/-- When the pre-truncation combined prompt exceeds the 3800-character
working budget, `composeRefinedPrompt` takes the truncation branch: the
refinement text is cut at `3800 - originalPrompt.length - 50` characters and
the marker is appended (and a long image description is shortened on the
side, which does not feed back into the prompt). -/
theorem composeRefinedPrompt_truncates (orig spatial : String) (desc : Option String)
    (hover : 3800 < (refinementTemplate orig spatial).length) :
    composeRefinedPrompt orig spatial desc =
      { combinedPrompt := refinementTemplate orig
          (jsSubstringTo spatial (3800 - (orig.length : ℤ) - 50) ++ refinementTruncationMarker),
        imageDescription :=
          match desc with
          | some d =>
            if d.length > 1000 then some (jsSubstringTo d 1000 ++ descriptionTruncationMarker)
            else some d
          | none => none } := by
  have h1 : (refinementTemplate orig spatial).length + (desc.map String.length).getD 0 > 3800 := by
    have h0 : 0 ≤ (desc.map String.length).getD 0 := Nat.zero_le _
    omega
  simp only [composeRefinedPrompt]
  rw [if_pos h1, if_pos hover]

/-- C1 counterexample: a 3900-character original prompt with a 200-character
refinement text (naive concatenation 4100 > 4000, no image description)
composes — after the code's own truncation — to a prompt of 4008 characters,
EXCEEDING the 4000-character provider limit, because the cut length
`3800 - originalPrompt.length - 50` is negative and only the refinement text
(never the original prompt) is truncated. -/
theorem composeRefinedPrompt_counterexample :
    4000 < (repChar 3900 'a').length + (repChar 200 'b').length ∧
    (composeRefinedPrompt (repChar 3900 'a') (repChar 200 'b') none).combinedPrompt.length = 4008 ∧
    4000 < (composeRefinedPrompt (repChar 3900 'a') (repChar 200 'b') none).combinedPrompt.length := by
  have hover : 3800 < (refinementTemplate (repChar 3900 'a') (repChar 200 'b')).length := by
    rw [refinementTemplate_length, repChar_length, repChar_length]
    omega
  have heq := composeRefinedPrompt_truncates (repChar 3900 'a') (repChar 200 'b') none hover
  have hlen : (composeRefinedPrompt (repChar 3900 'a') (repChar 200 'b') none).combinedPrompt.length = 4008 := by
    rw [heq]
    simp only [refinementTemplate_length, String.length_append, jsSubstringTo_length,
      repChar_length]
    rw [show refinementTruncationMarker.length = 56 from rfl]
    have hneg : max 0 (3800 - ((3900 : ℕ) : ℤ) - 50) = 0 := by
      apply max_eq_left
      omega
    rw [hneg]
    rfl
  refine ⟨?_, hlen, ?_⟩
  · rw [repChar_length, repChar_length]
    omega
  · rw [hlen]
    omega

/-- C1 (amended): whenever the pre-truncation combined prompt exceeds the
3800-character working budget AND the original prompt is at most 3750
characters, the composed prompt is at most 3858 ≤ 4000 characters long,
contains the original prompt verbatim (the original prompt is never
truncated), and ends with the truncation marker at the point of cut.
(Without the bound on the original prompt the budget can be exceeded — see
the counterexample; and when only the separately counted image description
overflows the budget, the composed prompt is left unchanged and carries no
marker.) -/
theorem composeRefinedPrompt_spec (orig spatial : String) (desc : Option String)
    (hover : 3800 < (refinementTemplate orig spatial).length)
    (horig : orig.length ≤ 3750) :
    (composeRefinedPrompt orig spatial desc).combinedPrompt.length ≤ 3858 ∧
    (composeRefinedPrompt orig spatial desc).combinedPrompt.length ≤ 4000 ∧
    (∃ pre post, (composeRefinedPrompt orig spatial desc).combinedPrompt = pre ++ orig ++ post) ∧
    (∃ q, (composeRefinedPrompt orig spatial desc).combinedPrompt =
      q ++ refinementTruncationMarker) := by
  have heq := composeRefinedPrompt_truncates orig spatial desc hover
  have hcut : (max 0 (3800 - (orig.length : ℤ) - 50)).toNat = 3750 - orig.length := by
    have h1 : (0 : ℤ) ≤ 3800 - (orig.length : ℤ) - 50 := by omega
    rw [max_eq_right h1]
    omega
  have hlen : (composeRefinedPrompt orig spatial desc).combinedPrompt.length ≤ 3858 := by
    rw [heq]
    simp only [refinementTemplate_length, String.length_append, jsSubstringTo_length, hcut]
    rw [show refinementTruncationMarker.length = 56 from rfl]
    have : min (3750 - orig.length) spatial.length ≤ 3750 - orig.length := Nat.min_le_left _ _
    omega
  refine ⟨hlen, le_trans hlen (by omega), ?_, ?_⟩
  · refine ⟨"Original image prompt: \"",
      "\"\n\nRefinement instructions: " ++
        (jsSubstringTo spatial (3800 - (orig.length : ℤ) - 50) ++ refinementTruncationMarker), ?_⟩
    rw [heq]
    show refinementTemplate orig _ = _
    rw [refinementTemplate]
    simp only [String.append_assoc]
  · refine ⟨"Original image prompt: \"" ++ orig ++ "\"\n\nRefinement instructions: " ++
      jsSubstringTo spatial (3800 - (orig.length : ℤ) - 50), ?_⟩
    rw [heq]
    show refinementTemplate orig _ = _
    rw [refinementTemplate]
    simp only [String.append_assoc]

/-- C1 witness: the amended theorem at a 100-character original prompt and a
4000-character refinement text. -/
theorem composeRefinedPrompt_spec_witness :
    (composeRefinedPrompt (repChar 100 'a') (repChar 4000 'b') none).combinedPrompt.length ≤ 4000 :=
  (composeRefinedPrompt_spec (repChar 100 'a') (repChar 4000 'b') none
    (by rw [refinementTemplate_length, repChar_length, repChar_length]; omega)
    (by rw [repChar_length]; omega)).2.1

end ImageBox
